import Mathlib

/-!
Verification of the SPARQL adapter in pybacktrip/backends/omikb.py
(class OmikbStrategy): pattern compilation to SPARQL text, namespace
handling, JSON binding decoding, and the failure behaviour of the
generic query and serialize operations.

Strings are modelled by Lean String; the Python string primitives the
code relies on are embedded on the character-list view of a string so
that general lemmas about them are provable. Curly braces inside SPARQL
text are written with their hexadecimal escapes.
-/

deriving instance DecidableEq for Except

namespace OmikbStrategy

/-- Python str.startswith, on the character-list view of a string. -/
def pyStartsWith (s pre : String) : Bool :=
  pre.data.isPrefixOf s.data

/-- Python s[1:]: drop the first character (code point). -/
def pyDrop1 (s : String) : String :=
  ⟨s.data.drop 1⟩

/-- OmikbStrategy.__GRAPH (omikb.py line 21). -/
def GRAPH : String := "graph://main"

/-- The namespace dict right after OmikbStrategy.__init__ (lines 23-28 and
41-42): the four fixed defaults, then the caller base IRI under the empty
key, in Python dict insertion order. -/
def init_namespaces (base_iri : String) : List (String × String) :=
  [("owl", "http://www.w3.org/2002/07/owl#"),
   ("rdf", "http://www.w3.org/1999/02/22-rdf-syntax-ns#"),
   ("rdfs", "http://www.w3.org/2000/01/rdf-schema#"),
   ("schema", "http://schema.org/"),
   ("", base_iri)]

/-- A SPARQL-results JSON entry dict as read by __convert_json_entrydict:
a type discriminator, a value, and the optional literal annotations the
code fetches with entrydict.get. -/
structure EntryDict where
  type : String
  value : String
  lang : Option String
  datatype : Option String
deriving DecidableEq

/-- A decoded term: plain string (uri or blank-node spelling), or a
tripper Literal carrying value, optional language and optional datatype
(lines 334-338 build exactly these three fields). -/
inductive Value
  | str (s : String)
  | lit (value : String) (lang : Option String) (datatype : Option String)
deriving DecidableEq

/-- OmikbStrategy.__convert_json_entrydict (lines 314-347). ns0 is
self.__namespaces[""], the empty-prefix namespace, which __init__ always
binds (line 42). A raise is an .error result. -/
def convert_json_entrydict (ns0 : String) (e : EntryDict) : Except String Value :=
  if e.type = "uri" then
    if pyStartsWith e.value ":" then
      .ok (.str ("<" ++ ns0 ++ pyDrop1 e.value ++ ">"))
    else
      .ok (.str e.value)
  else if e.type = "literal" then
    .ok (.lit e.value e.lang e.datatype)
  else if e.type = "bnode" then
    .ok (.str (if pyStartsWith e.value "_:" then e.value else "_:" ++ e.value))
  else
    .error ("Unexpected type in entrydict: " ++ e.type)

/-- True when __convert_json_entrydict raises. -/
def convErr (r : Except String Value) : Bool :=
  match r with
  | .error _ => true
  | .ok _ => false

/-- A match pattern: the 3-tuple argument of OmikbStrategy.triples, each
slot a bound string or None. -/
structure Pattern where
  s : Option String
  p : Option String
  o : Option String
deriving DecidableEq

/-- zip("spo", triple) (lines 50, 69, 87). -/
def patternSlots (t : Pattern) : List (String × Option String) :=
  [("s", t.s), ("p", t.p), ("o", t.o)]

/-- The variables list of triples (lines 48-54): one ?name per unbound
slot, falling back to a single * when every slot is bound. -/
def matchVariables (t : Pattern) : List String :=
  let vs := (patternSlots t).filterMap fun x =>
    if x.2 = none then some ("?" ++ x.1) else none
  if vs = [] then ["*"] else vs

/-- One term of the whereSpec of triples (lines 55-70): a variable for an
unbound slot; a bound value kept as-is when it starts with the angle
bracket, expanded against the empty-prefix namespace when it starts with
the colon, and otherwise wrapped in angle brackets. -/
def whereTerm (ns0 : String) (x : String × Option String) : String :=
  match x.2 with
  | none => "?" ++ x.1
  | some v =>
      if pyStartsWith v "<" then v
      else if pyStartsWith v ":" then "<" ++ ns0 ++ pyDrop1 v ++ ">"
      else "<" ++ v ++ ">"

/-- The whereSpec of triples (lines 55-70): the three rendered slots
joined by single spaces. -/
def whereSpec (ns0 : String) (t : Pattern) : String :=
  String.intercalate " " ((patternSlots t).map (whereTerm ns0))

/-- The query string built by triples (lines 72-76): the exact value of
the triple-quoted f-string, newlines and indentation included. -/
def triplesQuery (ns0 : String) (t : Pattern) : String :=
  "\n            SELECT " ++ String.intercalate " " (matchVariables t) ++
  "\n            FROM <" ++ GRAPH ++ ">" ++
  "\n            WHERE \x7b" ++ whereSpec ns0 t ++ "\x7d\n        "

/-- One element of the row tuple yielded by triples (lines 80-88): when
the slot name is among the binding keys, the decoded binding entry, else
the original slot value passed through (possibly None, modelled by the
outer Option). -/
def decodeSlot (ns0 : String) (binding : List (String × EntryDict))
    (x : String × Option String) : Except String (Option Value) :=
  match binding.lookup x.1 with
  | some e => (convert_json_entrydict ns0 e).map some
  | none => .ok (Option.map Value.str x.2)

/-- The full row tuple yielded by triples for one binding (lines 80-88),
slot by slot in subject, predicate, object order. -/
def decodeTriplePattern (ns0 : String) (binding : List (String × EntryDict))
    (t : Pattern) : List (Except String (Option Value)) :=
  (patternSlots t).map (decodeSlot ns0 binding)

/-- A value of an add_triples input triple: a plain Python string, or a
tripper Literal whose n3() rendering is the carried string (tripper is an
external library, so its rendering is opaque data here). -/
inductive TermVal
  | str (s : String)
  | lit (n3 : String)
deriving DecidableEq

/-- The rendering of one value inside add_triples (lines 96-107): n3()
for a Literal; a string kept as-is when it starts with an angle bracket
or a double quote, expanded when the empty key is bound and the value
starts with the colon, kept as-is when it starts with the colon but the
empty key is unbound, and otherwise wrapped in angle brackets. -/
def insertValueSpec (nss : List (String × String)) (v : TermVal) : String :=
  match v with
  | .lit n3 => n3
  | .str value =>
      if pyStartsWith value "<" || pyStartsWith value "\"" then value
      else
        match nss.lookup "" with
        | some ns0 =>
            if pyStartsWith value ":" then "<" ++ ns0 ++ pyDrop1 value ++ ">"
            else "<" ++ value ++ ">"
        | none =>
            if pyStartsWith value ":" then value
            else "<" ++ value ++ ">"

/-- The update command built by add_triples (lines 93-114): every triple
rendered value by value, joined by spaces with a dot terminator, wrapped
in INSERT DATA and GRAPH braces. -/
def add_triples_cmd (nss : List (String × String)) (triples : List (List TermVal)) : String :=
  let spec := String.intercalate " "
    (triples.map fun triple =>
      String.intercalate " " (triple.map (insertValueSpec nss)) ++ " .")
  "INSERT DATA \x7b GRAPH <" ++ GRAPH ++ "> \x7b " ++ spec ++ " \x7d \x7d"

/-- OmikbStrategy.format_query (lines 272-276): one pass over the
namespace dict, each iteration prepending one PREFIX clause to the
query accumulated so far. -/
def format_query (nss : List (String × String)) (query : String) : String :=
  nss.foldl (fun q pn => "PREFIX " ++ pn.1 ++ ": <" ++ pn.2 ++ "> " ++ q) query

/-- The single PREFIX clause format_query prepends for one dict entry. -/
def pfxClause (pn : String × String) : String :=
  "PREFIX " ++ pn.1 ++ ": <" ++ pn.2 ++ "> "

/-- The clauses of a namespace list laid out back to front: the clause of
the last entry comes first. -/
def pfxClausesRev : List (String × String) → String
  | [] => ""
  | pn :: rest => pfxClausesRev rest ++ pfxClause pn

/-- The parsed JSON body a successful query response yields: head.vars
and results.bindings (lines 167-168). -/
structure ResJson where
  vars : List String
  bindings : List (List (String × EntryDict))
deriving DecidableEq

/-- The response object kb.query returns: status_code, text, and the
outcome of calling .json() on it (which may itself raise). -/
structure Response where
  status_code : Nat
  text : String
  json : Except String ResJson

/-- The outcome of one dispatch to self.kb.query: a raised exception or
a returned response object. -/
inductive Dispatch
  | raise (msg : String)
  | resp (r : Response)

/-- One result tuple of OmikbStrategy.query for one binding row (lines
171-177): the entry of every head variable decoded in order; a missing
key or an unexpected term type raises, outside the try block. -/
def decodeRowVars (ns0 : String) (vars : List String)
    (binding : List (String × EntryDict)) : Except String (List Value) :=
  vars.mapM fun var =>
    match binding.lookup var with
    | some e => convert_json_entrydict ns0 e
    | none => .error ("KeyError: " ++ var)

/-- OmikbStrategy.query (lines 154-181), with kb the behaviour of the
remote call on the dispatched text. Inside the try: a raised exception,
a 400 status, or a .json() failure each return None (.ok none). After
the try, every binding row is decoded over head.vars; failures there
propagate (.error). The empty-prefix namespace used by decoding is the
one bound since __init__. -/
def query (nss : List (String × String)) (kb : String → Dispatch)
    (query_object : String) : Except String (Option (List (List Value))) :=
  match kb (format_query nss query_object) with
  | .raise _ => .ok none
  | .resp r =>
      if r.status_code = 400 then .ok none
      else
        match r.json with
        | .error _ => .ok none
        | .ok res =>
            (res.bindings.mapM (decodeRowVars ((nss.lookup "").getD "") res.vars)).map some

/-- The fixed query text serialize builds (line 252). -/
def serializeQueryText : String :=
  "SELECT * WHERE \x7b GRAPH <" ++ GRAPH ++ "> \x7b ?s ?p ?o \x7d \x7d"

/-- The destination argument of serialize: the empty default, a file
name string, or a writable object. -/
inductive Dest
  | empty
  | file (path : String)
  | stream

/-- OmikbStrategy.serialize (lines 238-270), with kb the behaviour of the
remote call. Returns the Python return value (None modelled as the outer
none) paired with the list of contents written to the destination. A 400
status returns None before any destination handling; otherwise the
response text is returned directly when no destination was given, and
written out with an empty-string return value when one was. -/
def serialize (nss : List (String × String)) (kb : String → Response)
    (destination : Dest) : Option String × List String :=
  let r := kb (format_query nss serializeQueryText)
  if r.status_code = 400 then (none, [])
  else
    match destination with
    | .empty => (some r.text, [])
    | .file _ => (some "", [r.text])
    | .stream => (some "", [r.text])

/-- Tokenizer for whitespace normalization of query text: the maximal
runs of non-whitespace characters, in order. -/
def wsTokensAux : List Char → List Char → List String
  | [], acc => if acc = [] then [] else [⟨acc.reverse⟩]
  | c :: rest, acc =>
      if c.isWhitespace then
        if acc = [] then wsTokensAux rest []
        else (⟨acc.reverse⟩ : String) :: wsTokensAux rest []
      else wsTokensAux rest (c :: acc)

/-- Collapse every run of whitespace in a string to a single space and
trim both ends. -/
def normalizeWs (s : String) : String :=
  String.intercalate " " (wsTokensAux s.data [])

/-- A string extended on the left by the two-character blank-node marker
always starts with that marker. -/
theorem pyStartsWith_us_colon (v : String) : pyStartsWith ("_:" ++ v) "_:" = true := by
  simp [pyStartsWith, List.isPrefixOf, String.data_append]

/-- Claim C1, counterexample: with empty-prefix namespace http://ex.org/,
the uri entry with value :Foo decodes to the delimited string
<http://ex.org/Foo>, not to the plain string http://ex.org/Foo the claim
states. -/
theorem C1_counterexample :
    convert_json_entrydict "http://ex.org/" ⟨"uri", ":Foo", none, none⟩ =
      .ok (.str "<http://ex.org/Foo>") ∧
    convert_json_entrydict "http://ex.org/" ⟨"uri", ":Foo", none, none⟩ ≠
      .ok (.str "http://ex.org/Foo") := by
  decide

/-- Claim C1, amended: a uri entry whose value starts with the colon is
expanded against the empty-prefix namespace and wrapped in angle
brackets; any other uri entry value is returned as-is. -/
theorem C1_uri_decode (ns0 : String) (e : EntryDict) (h : e.type = "uri") :
    convert_json_entrydict ns0 e =
      .ok (.str (if pyStartsWith e.value ":" then "<" ++ ns0 ++ pyDrop1 e.value ++ ">"
                 else e.value)) := by
  simp only [convert_json_entrydict, h]
  simp only [reduceIte]
  split <;> simp

/-- Claim C1, witness: the amended statement evaluated on the uri entry
:Foo with empty-prefix namespace http://ex.org/. -/
theorem C1_uri_decode_witness :
    convert_json_entrydict "http://ex.org/" ⟨"uri", ":Foo", none, none⟩ =
      .ok (.str "<http://ex.org/Foo>") :=
  (C1_uri_decode "http://ex.org/" ⟨"uri", ":Foo", none, none⟩ rfl).trans (by decide)

/-- Claim C2, counterexample: the query built for the pattern
(None, <http://b>, None) is not, character for character, the one-line
SELECT string the claim states (the f-string template contributes
newlines and indentation). -/
theorem C2_counterexample :
    triplesQuery "http://ex.org/" ⟨none, some "<http://b>", none⟩ ≠
      "SELECT ?s ?o FROM <graph://main> WHERE \x7b?s <http://b> ?o\x7d" := by
  decide

/-- Claim C2, amended: the query built for the pattern
(None, <http://b>, None) is exactly the multi-line template text, and
collapsing its whitespace runs yields exactly the SELECT string the
claim states. -/
theorem C2_exact_text :
    triplesQuery "http://ex.org/" ⟨none, some "<http://b>", none⟩ =
      "\n            SELECT ?s ?o\n            FROM <graph://main>\n            WHERE \x7b?s <http://b> ?o\x7d\n        " ∧
    normalizeWs (triplesQuery "http://ex.org/" ⟨none, some "<http://b>", none⟩) =
      "SELECT ?s ?o FROM <graph://main> WHERE \x7b?s <http://b> ?o\x7d" := by
  exact ⟨by decide, by decide⟩

/-- Claim C3, counterexample: the already-quoted object value of the
fully bound pattern is wrapped in angle brackets by the WHERE clause
builder of triples, not placed unchanged as the claim states. -/
theorem C3_counterexample :
    whereSpec "http://ex.org/" ⟨some "<http://a>", some "<http://b>", some "\"c\""⟩ =
      "<http://a> <http://b> <\"c\">" ∧
    whereSpec "http://ex.org/" ⟨some "<http://a>", some "<http://b>", some "\"c\""⟩ ≠
      "<http://a> <http://b> \"c\"" := by
  decide

/-- Claim C3, amended: in the WHERE clause of triples a bound slot value
with a leading angle bracket is kept unchanged, a leading colon is
expanded against the empty-prefix namespace, and every other value,
already-quoted literals included, is wrapped in angle brackets. -/
theorem C3_bound_slot (ns0 v : String) :
    whereSpec ns0 ⟨some v, none, none⟩ = whereTerm ns0 ("s", some v) ++ " ?p ?o" ∧
    (pyStartsWith v "<" = true → whereTerm ns0 ("s", some v) = v) ∧
    (pyStartsWith v "<" = false → pyStartsWith v ":" = true →
      whereTerm ns0 ("s", some v) = "<" ++ ns0 ++ pyDrop1 v ++ ">") ∧
    (pyStartsWith v "<" = false → pyStartsWith v ":" = false →
      whereTerm ns0 ("s", some v) = "<" ++ v ++ ">") := by
  refine ⟨?_, ?_, ?_, ?_⟩
  · simp [whereSpec, patternSlots, String.intercalate, String.intercalate.go,
      String.append_assoc, whereTerm]
  · intro h; simp [whereTerm, h]
  · intro h1 h2; simp [whereTerm, h1, h2]
  · intro h1 h2; simp [whereTerm, h1, h2]

/-- Claim C3, witness: the amended statement evaluated on the quoted
literal value, which is wrapped in angle brackets. -/
theorem C3_bound_slot_witness :
    pyStartsWith "\"c\"" "<" = false ∧ pyStartsWith "\"c\"" ":" = false ∧
    whereTerm "http://ex.org/" ("s", some "\"c\"") = "<" ++ "\"c\"" ++ ">" :=
  ⟨by decide, by decide,
    (C3_bound_slot "http://ex.org/" "\"c\"").2.2.2 (by decide) (by decide)⟩

set_option maxRecDepth 4000 in
/-- Claim C4, counterexample: on the namespace dict built by __init__,
format_query emits the PREFIX clauses in reverse registry order (the
empty-prefix clause first, owl last), not in registry iteration order as
the claim states. -/
theorem C4_counterexample :
    format_query (init_namespaces "http://ex.org/") "Q" =
      "PREFIX : <http://ex.org/> PREFIX schema: <http://schema.org/> PREFIX rdfs: <http://www.w3.org/2000/01/rdf-schema#> PREFIX rdf: <http://www.w3.org/1999/02/22-rdf-syntax-ns#> PREFIX owl: <http://www.w3.org/2002/07/owl#> Q" ∧
    format_query (init_namespaces "http://ex.org/") "Q" ≠
      "PREFIX owl: <http://www.w3.org/2002/07/owl#> PREFIX rdf: <http://www.w3.org/1999/02/22-rdf-syntax-ns#> PREFIX rdfs: <http://www.w3.org/2000/01/rdf-schema#> PREFIX schema: <http://schema.org/> PREFIX : <http://ex.org/> Q" := by
  decide

/-- Claim C4, amended: format_query prepends exactly one PREFIX clause
per registry entry to the query text, and the clauses appear in reverse
registry iteration order, the clause of the last entry first. -/
theorem C4_clause_order (nss : List (String × String)) (q : String) :
    format_query nss q = pfxClausesRev nss ++ q := by
  induction nss generalizing q with
  | nil => simp [format_query, pfxClausesRev]
  | cons pn rest ih =>
      show format_query (pn :: rest) q = pfxClausesRev (pn :: rest) ++ q
      have h1 : format_query (pn :: rest) q =
          format_query rest (pfxClause pn ++ q) := by
        simp [format_query, pfxClause, String.append_assoc]
      rw [h1, ih]
      simp [pfxClausesRev, String.append_assoc]

/-- Claim C5: when the dispatched call raises, or returns a response
with a 400 status, the generic query operation returns None without
propagating any error. -/
theorem C5_dispatch_failure (nss : List (String × String)) (kb : String → Dispatch)
    (q : String)
    (h : (∃ m, kb (format_query nss q) = .raise m) ∨
         (∃ r, kb (format_query nss q) = .resp r ∧ r.status_code = 400)) :
    query nss kb q = .ok none := by
  rcases h with ⟨m, hm⟩ | ⟨r, hr, h400⟩
  · simp [query, hm]
  · simp [query, hr, h400]

/-- Claim C5, witness: a dispatch that raises yields the None result. -/
theorem C5_dispatch_failure_witness :
    query [] (fun _ => .raise "boom") "Q" = .ok none :=
  C5_dispatch_failure [] (fun _ => .raise "boom") "Q" (Or.inl ⟨"boom", rfl⟩)

/-- Claim C6: decoding any fully bound triple against the empty binding
row yields every original slot value back unchanged. -/
theorem C6_roundtrip (ns0 s p o : String) :
    decodeTriplePattern ns0 [] ⟨some s, some p, some o⟩ =
      [.ok (some (.str s)), .ok (some (.str p)), .ok (some (.str o))] := by
  simp [decodeTriplePattern, decodeSlot, patternSlots]

/-- Claim C7: the projection of the match query holds exactly one
variable per unbound slot, named ?s, ?p or ?o after the slot position
and in that order, and falls back to a single * when every slot is
bound. -/
theorem C7_projection (t : Pattern) :
    matchVariables t =
      (let vs := (if t.s = none then ["?s"] else []) ++
        (if t.p = none then ["?p"] else []) ++
        (if t.o = none then ["?o"] else [])
       if vs = [] then ["*"] else vs) := by
  rcases t with ⟨s, p, o⟩
  cases s <;> cases p <;> cases o <;> simp [matchVariables, patternSlots]

/-- Claim C8: the insert command compiled for the single fully bound
triple (<http://a>, <http://b>, "c") is character for character the
INSERT DATA string the claim states. -/
theorem C8_insert_exact :
    add_triples_cmd (init_namespaces "http://ex.org/")
      [[.str "<http://a>", .str "<http://b>", .str "\"c\""]] =
      "INSERT DATA \x7b GRAPH <graph://main> \x7b <http://a> <http://b> \"c\" . \x7d \x7d" := by
  decide

/-- Claim C9: __convert_json_entrydict raises exactly when the type
discriminator is none of uri, literal and bnode; a bnode entry never
raises and its result carries a leading blank-node marker, kept when
already present and added when absent. -/
theorem C9_error_iff (ns0 : String) (e : EntryDict) :
    (convErr (convert_json_entrydict ns0 e) = true ↔
      (e.type ≠ "uri" ∧ e.type ≠ "literal" ∧ e.type ≠ "bnode")) ∧
    (e.type = "bnode" →
      ∃ s : String, convert_json_entrydict ns0 e = .ok (.str s) ∧
        pyStartsWith s "_:" = true ∧
        (pyStartsWith e.value "_:" = true → s = e.value)) := by
  constructor
  · simp only [convert_json_entrydict]
    split_ifs with h1 h2 h3 h4 <;> simp_all [convErr]
  · intro h
    refine ⟨if pyStartsWith e.value "_:" then e.value else "_:" ++ e.value, ?_, ?_, ?_⟩
    · simp [convert_json_entrydict, h]
    · split
      next h2 => exact h2
      next h2 => exact pyStartsWith_us_colon e.value
    · intro hv
      simp [hv]

/-- Claim C9, witness: an unknown discriminator raises, and the bnode
entry b0 decodes to a blank-node spelling with the marker added. -/
theorem C9_error_iff_witness :
    convErr (convert_json_entrydict "http://ex.org/" ⟨"frob", "x", none, none⟩) = true ∧
    (∃ s : String, convert_json_entrydict "http://ex.org/" ⟨"bnode", "b0", none, none⟩ =
        .ok (.str s) ∧ pyStartsWith s "_:" = true ∧
        (pyStartsWith "b0" "_:" = true → s = "b0")) :=
  ⟨(C9_error_iff "http://ex.org/" ⟨"frob", "x", none, none⟩).1.mpr (by decide),
   (C9_error_iff "http://ex.org/" ⟨"bnode", "b0", none, none⟩).2 rfl⟩

/-- Claim C10: when the export query comes back with a 400 status,
serialize returns None whatever the destination argument was, and
writes nothing to it. -/
theorem C10_bad_request (nss : List (String × String)) (kb : String → Response)
    (d : Dest) (h : (kb (format_query nss serializeQueryText)).status_code = 400) :
    serialize nss kb d = (none, []) := by
  simp [serialize, h]

/-- Claim C10, witness: a 400 response with a file destination returns
None and performs no write. -/
theorem C10_bad_request_witness :
    serialize [] (fun _ => ⟨400, "err", .error "json"⟩) (.file "out.ttl") = (none, []) :=
  C10_bad_request [] (fun _ => ⟨400, "err", .error "json"⟩) (.file "out.ttl") rfl

end OmikbStrategy
